import Mathlib

/-!
Shallow embedding of `src/main.py` (bashkortostan-weather): layout model,
text-block renderer, background/icon resolver, weather-response parsing,
image composition, date/time localisation, and sticker-set reconciliation.
Filesystem existence and text measurement are modelled as oracles
(`String → Bool` and `Nat → String → Int × Int`).
-/

/-- Mirrors the `BlockLayout` dataclass: optional x/y, font size, right
alignment flag (default `false`). -/
structure BlockLayout where
  x : Option Int
  y : Option Int
  font_size : Nat
  right_align : Bool := false

/-- Mirrors the `DetailsLayout` dataclass. -/
structure DetailsLayout where
  x : Int
  y : Int
  font_size : Nat
  line_spacing : Int := 6

def CITY_LAYOUT : BlockLayout := { x := some 50, y := some 400, font_size := 58 }

def TEMP_LAYOUT : BlockLayout :=
  { x := some 80, y := some 30, font_size := 140, right_align := true }

def DEGREE_LAYOUT : BlockLayout :=
  { x := some 430, y := some 56, font_size := 42, right_align := false }

def DAY_LAYOUT : BlockLayout := { x := some 396, y := some 310, font_size := 48 }

def MONTH_LAYOUT : BlockLayout := { x := some 396, y := some 280, font_size := 30 }

def TIME_LAYOUT : BlockLayout := { x := some 400, y := some 366, font_size := 20 }

def DETAILS_LAYOUT : DetailsLayout :=
  { x := 50, y := 290, font_size := 30, line_spacing := 6 }

/-- Mirrors `_draw_text_block`: measure the text (the measurement oracle
stands for `draw.textbbox` at the layout's font size), resolve x by the
four-way ladder, resolve y by the three-way ladder, and return
`(x, y, text_w, text_h)`.  Python's `//` is floor division, hence
`Int.fdiv`. -/
def drawField (measure : Nat → String → Int × Int) (imgW imgH : Int)
    (text : String) (layout : BlockLayout)
    (defaultX defaultY : Option Int) : Int × Int × Int × Int :=
  let wh := measure layout.font_size text
  let text_w := wh.1
  let text_h := wh.2
  let x :=
    match layout.x with
    | some lx => if layout.right_align then imgW - lx - text_w else lx
    | none =>
      match defaultX with
      | some dx => dx
      | none => (imgW - text_w).fdiv 2
  let y :=
    match layout.y with
    | some ly => ly
    | none =>
      match defaultY with
      | some dy => dy
      | none => imgH - text_h - 40
  (x, y, text_w, text_h)

/-- Model of `IMAGES_DIR` (`Path(__file__).parent / "images"`) as a relative
path string. -/
def IMAGES_DIR : String := "images/"

def ICONS_DIR : String := IMAGES_DIR ++ "icons/"

def BG_FALLBACK_1 : String := "bg_fallback.png"

def BG_FALLBACK_2 : String := "bg_01d.png"

/-- The convention-named background candidate `IMAGES_DIR / ("bg_" + iconCode + ".png")`. -/
def bgPath (iconCode : String) : String := IMAGES_DIR ++ "bg_" ++ iconCode ++ ".png"

/-- Mirrors `_get_background_path`: try the convention-named background when
`iconCode` is non-empty, then the two fixed fallbacks; on total failure the
error payload lists the three candidate paths named by the raised
`FileNotFoundError` message. -/
def getBackgroundPath (ex : String → Bool) (iconCode : String) :
    Except (List String) String :=
  if (iconCode != "") && ex (bgPath iconCode) then .ok (bgPath iconCode)
  else if ex (IMAGES_DIR ++ BG_FALLBACK_1) then .ok (IMAGES_DIR ++ BG_FALLBACK_1)
  else if ex (IMAGES_DIR ++ BG_FALLBACK_2) then .ok (IMAGES_DIR ++ BG_FALLBACK_2)
  else .error [bgPath iconCode, IMAGES_DIR ++ BG_FALLBACK_1,
               IMAGES_DIR ++ BG_FALLBACK_2]

/-- The icon candidate `ICONS_DIR / (iconCode + ".png")`. -/
def iconPath (iconCode : String) : String := ICONS_DIR ++ iconCode ++ ".png"

/-- Mirrors `_paste_icon`: first component is the icon pasted (if any), the
second records whether the `[warn] icon not found` message was printed.
An empty icon code returns silently; a missing file warns; otherwise the
icon at `iconPath` is pasted. -/
def pasteIcon (ex : String → Bool) (iconCode : String) : Option String × Bool :=
  if iconCode = "" then (none, false)
  else if !(ex (iconPath iconCode)) then (none, true)
  else (some (iconPath iconCode), false)

/-- Mirrors the `WeatherInfo` dataclass.  Python floats are modelled as
rationals. -/
structure WeatherInfo where
  temp : ℚ
  humidity : ℤ
  wind_speed : ℚ
  description : String
  condition_main : String
  icon_code : String

/-- Model of Python `str.capitalize()` for the ASCII strings this program
handles: first character uppercased, the rest lowercased. -/
def pyCapitalize (s : String) : String :=
  match s.data with
  | [] => ""
  | c :: rest => String.mk (c.toUpper :: rest.map Char.toLower)

/-- Model of Python `round()` on a rational: round half to even. -/
def pyRound (q : ℚ) : ℤ :=
  let f := ⌊q⌋
  let r := q - f
  if r < 1/2 then f
  else if 1/2 < r then f + 1
  else if f % 2 = 0 then f else f + 1

/-- Model of the `wind` JSON object: an optional `speed` field. -/
structure RawWind where
  speed : Option ℚ

/-- Model of one entry of the `weather` JSON list: the three optional string
fields `fetch_weather` reads. -/
structure RawWeatherEntry where
  description : Option String
  main : Option String
  icon : Option String

/-- Model of the `main` JSON object: `temp` and `humidity` are accessed with
`[]` (required). -/
structure RawMain where
  temp : ℚ
  humidity : ℤ

/-- Model of a successful weather-provider JSON body. -/
structure RawResp where
  main : RawMain
  wind : Option RawWind
  weather : List RawWeatherEntry

/-- Mirrors the pure tail of `fetch_weather` (after the HTTP layer): build a
`WeatherInfo` from the JSON body.  `data.get("wind", {})` then
`wind.get("speed", 0.0)` becomes nested `Option.getD`; `data["weather"][0]`
on an empty list raises, modelled as `none`. -/
def fetchWeatherInfo (r : RawResp) : Option WeatherInfo :=
  match r.weather with
  | [] => none
  | w0 :: _ =>
    some
      { temp := r.main.temp
        humidity := r.main.humidity
        wind_speed := ((r.wind.getD ⟨none⟩).speed).getD 0
        description := pyCapitalize (w0.description.getD "")
        condition_main := w0.main.getD "Default"
        icon_code := w0.icon.getD "" }

/-- Python `f"{q:.1f}"` on the model rationals: one decimal digit,
rounding half to even. -/
def fmtFixed1 (q : ℚ) : String :=
  let n := pyRound (q * 10)
  let sign := if n < 0 then "-" else ""
  let m := n.natAbs
  sign ++ toString (m / 10) ++ "." ++ toString (m % 10)

/-- The three detail lines of `_draw_details_block`, in source order:
humidity, wind, description. -/
def detailLines (w : WeatherInfo) : List String :=
  ["Humidity: " ++ toString w.humidity ++ "%",
   "Wind: " ++ fmtFixed1 w.wind_speed ++ " m/s",
   w.description]

/-- The accumulating loop of `_draw_details_block`: draw each line at
`(x, y)` and advance `y` by the measured height plus the line spacing. -/
def detailsStack (measure : Nat → String → Int × Int) (fs : Nat)
    (x spacing : Int) : Int → List String → List (String × Int × Int)
  | _, [] => []
  | y, s :: rest =>
    (s, x, y) :: detailsStack measure fs x spacing (y + (measure fs s).2 + spacing) rest

/-- Mirrors `_draw_details_block` with the configured `DETAILS_LAYOUT`. -/
def drawDetailsBlock (measure : Nat → String → Int × Int) (w : WeatherInfo) :
    List (String × Int × Int) :=
  detailsStack measure DETAILS_LAYOUT.font_size DETAILS_LAYOUT.x
    DETAILS_LAYOUT.line_spacing DETAILS_LAYOUT.y (detailLines w)

/-- One drawing operation of `generate_weather_image`. -/
inductive DrawOp where
  | background (path : String)
  | icon (path : String)
  | text (s : String) (x y : Int)
  deriving DecidableEq

/-- The six single-line text fields plus the details block, drawn in source
order by `generate_weather_image`. -/
def textOps (measure : Nat → String → Int × Int) (imgW imgH : Int)
    (cityName : String) (w : WeatherInfo)
    (dayT monthT timeT : String) : List DrawOp :=
  let tempText := toString (pyRound w.temp)
  let t := drawField measure imgW imgH tempText TEMP_LAYOUT none (some 70)
  let d := drawField measure imgW imgH "°C" DEGREE_LAYOUT none (some 70)
  let c := drawField measure imgW imgH cityName CITY_LAYOUT none none
  let dy := drawField measure imgW imgH dayT DAY_LAYOUT none none
  let mo := drawField measure imgW imgH monthT MONTH_LAYOUT none none
  let ti := drawField measure imgW imgH timeT TIME_LAYOUT none none
  [DrawOp.text tempText t.1 t.2.1,
   DrawOp.text "°C" d.1 d.2.1,
   DrawOp.text cityName c.1 c.2.1,
   DrawOp.text dayT dy.1 dy.2.1,
   DrawOp.text monthT mo.1 mo.2.1,
   DrawOp.text timeT ti.1 ti.2.1]
  ++ (drawDetailsBlock measure w).map (fun l => DrawOp.text l.1 l.2.1 l.2.2)

/-- Mirrors `generate_weather_image`: resolve the background (fatal on
failure), optionally paste the icon, then draw all text fields. -/
def composeOps (exBg exIcon : String → Bool) (measure : Nat → String → Int × Int)
    (imgW imgH : Int) (cityName : String) (w : WeatherInfo)
    (dayT monthT timeT : String) : Except (List String) (List DrawOp) :=
  match getBackgroundPath exBg w.icon_code with
  | .error ps => .error ps
  | .ok bg =>
    let iconOps :=
      match (pasteIcon exIcon w.icon_code).1 with
      | some p => [DrawOp.icon p]
      | none => []
    .ok (DrawOp.background bg :: iconOps
          ++ textOps measure imgW imgH cityName w dayT monthT timeT)

/-- Model of a Python naive `datetime` at minute precision, as used by the
orchestrator (`datetime.utcnow()` plus whole-hour offsets, formatted with
`%d`, `%b`, `%H:%M`). -/
structure PyDateTime where
  year : Nat
  month : Nat
  day : Nat
  hour : Nat
  minute : Nat
  deriving DecidableEq

def isLeapYear (y : Nat) : Bool :=
  (y % 4 == 0 && y % 100 != 0) || y % 400 == 0

def daysInMonth (y m : Nat) : Nat :=
  if m = 2 then (if isLeapYear y then 29 else 28)
  else if m = 4 ∨ m = 6 ∨ m = 9 ∨ m = 11 then 30
  else 31

def nextDay (d : PyDateTime) : PyDateTime :=
  if d.day < daysInMonth d.year d.month then { d with day := d.day + 1 }
  else if d.month < 12 then { d with day := 1, month := d.month + 1 }
  else { d with day := 1, month := 1, year := d.year + 1 }

def addDays : PyDateTime → Nat → PyDateTime
  | d, 0 => d
  | d, n + 1 => addDays (nextDay d) n

/-- Model of `utc_now + timedelta(hours=h)` for the non-negative offsets this
program configures. -/
def addHours (d : PyDateTime) (h : Nat) : PyDateTime :=
  let t := d.hour + h
  addDays { d with hour := t % 24 } (t / 24)

/-- Two-digit zero padding, as in `%d`, `%H`, `%M`. -/
def pad2 (n : Nat) : String :=
  if n < 10 then "0" ++ toString n else toString n

/-- Abbreviated month name, as in `%b`. -/
def monthAbbrev (m : Nat) : String :=
  match m with
  | 1 => "Jan" | 2 => "Feb" | 3 => "Mar" | 4 => "Apr"
  | 5 => "May" | 6 => "Jun" | 7 => "Jul" | 8 => "Aug"
  | 9 => "Sep" | 10 => "Oct" | 11 => "Nov" | 12 => "Dec"
  | _ => ""

/-- Mirrors the per-city date/time strings of `update_stickers`:
`city_now = utc_now + timedelta(hours=tz_offset_hours)`, then
`(%d, %b, %H:%M)`. -/
def cityLocalStrings (utcNow : PyDateTime) (tzOffsetHours : Nat) :
    String × String × String :=
  let cityNow := addHours utcNow tzOffsetHours
  (pad2 cityNow.day, monthAbbrev cityNow.month,
   pad2 cityNow.hour ++ ":" ++ pad2 cityNow.minute)

/-- One remote sticker-API mutation issued by `update_stickers`; `α` is the
type of old sticker file ids, `β` the type of freshly uploaded stickers. -/
inductive ApiCall (α β : Type) where
  | createSet (stickers : List β)
  | replace (old : α) (new : β)
  | add (new : β)
  | delete (old : α)
  deriving DecidableEq

def isMutationCall {α β : Type} : ApiCall α β → Bool
  | .createSet _ => false
  | _ => true

/-- Mirrors the reconciliation tail of `update_stickers`: one replace per
index of `range(common)` pairing `old[i]` with `new[i]`, then either adds
over `range(common, new_count)` or deletes over `range(common, old_count)`.
Python `range(a, b)` is `List.range' a (b - a)`. -/
def reconcileCalls {α β : Type} (old : List α) (new : List β) :
    List (ApiCall α β) :=
  let common := min old.length new.length
  let reps := (List.range common).filterMap fun i =>
    match old[i]?, new[i]? with
    | some o, some n => some (ApiCall.replace o n)
    | _, _ => none
  let extras :=
    if new.length > old.length then
      (List.range' common (new.length - common)).filterMap fun i =>
        (new[i]?).map ApiCall.add
    else if old.length > new.length then
      (List.range' common (old.length - common)).filterMap fun i =>
        (old[i]?).map ApiCall.delete
    else []
  reps ++ extras

def lowerStr (s : String) : String := String.mk (s.data.map Char.toLower)

def charsStart : List Char → List Char → Bool
  | [], _ => true
  | _ :: _, [] => false
  | a :: p, b :: s => a == b && charsStart p s

/-- Python `pat in s` on strings: `pat` occurs as a contiguous substring. -/
def charsSub (pat : List Char) : List Char → Bool
  | [] => pat.isEmpty
  | c :: rest => charsStart pat (c :: rest) || charsSub pat rest

def strContains (s pat : String) : Bool := charsSub pat.data s.data

/-- The "not found"-class test of `update_stickers`:
`"stickerset_invalid" in msg or "stickerset not found" in msg` after
lowercasing the `BadRequest` message. -/
def isNotFoundMsg (msg : String) : Bool :=
  strContains (lowerStr msg) "stickerset_invalid"
    || strContains (lowerStr msg) "stickerset not found"

/-- Mirrors the set-level branch of `update_stickers` after all uploads:
on a successful `get_sticker_set`, reconcile; on a `BadRequest` whose
message is "not found"-class, create the set with the full new list and
stop; on any other `BadRequest`, re-raise. -/
def syncAfterUpload {α β : Type} (getRes : Except String (List α))
    (newStickers : List β) : Except String (List (ApiCall α β)) :=
  match getRes with
  | .ok old => .ok (reconcileCalls old newStickers)
  | .error msg =>
    if isNotFoundMsg msg then .ok [ApiCall.createSet newStickers]
    else .error msg

/-- A Python exception raised by an individual sticker-API call: the code
catches only `BadRequest`. -/
inductive PyExc where
  | badRequest (msg : String)
  | other (msg : String)
  deriving DecidableEq

def isBadRequestExc : PyExc → Bool
  | .badRequest _ => true
  | .other _ => false

/-- Per-item execution of the reconciliation calls, with the source's
`try/except BadRequest` around each call: a `BadRequest` outcome is logged
(`false` flag) and the loop continues; any other exception propagates and
aborts the run. -/
def runItems {α β : Type} (outcome : ApiCall α β → Option PyExc) :
    List (ApiCall α β) → Except PyExc (List (ApiCall α β × Bool))
  | [] => .ok []
  | c :: rest =>
    match outcome c with
    | none => (runItems outcome rest).map (fun l => (c, true) :: l)
    | some (PyExc.badRequest _) => (runItems outcome rest).map (fun l => (c, false) :: l)
    | some (PyExc.other m) => .error (PyExc.other m)

/-- A fixed text-measurement oracle used for concrete instantiations. -/
def measureFix : Nat → String → Int × Int := fun _ _ => (100, 30)

/-- A filesystem on which only `images/bg_fallback.png` exists. -/
def exFB1 : String → Bool := fun s => s == "images/bg_fallback.png"

/-- A concrete weather snapshot used for concrete instantiations. -/
def wSample : WeatherInfo :=
  { temp := 3, humidity := 93, wind_speed := 37/10,
    description := "Light rain", condition_main := "Rain", icon_code := "01d" }

/-- A concrete provider response with every optional field absent. -/
def rSample : RawResp :=
  { main := { temp := 5, humidity := 80 },
    wind := none,
    weather := [{ description := none, main := none, icon := none }] }

/-- A concrete provider response with a mixed-case description. -/
def rSample2 : RawResp :=
  { main := { temp := 5, humidity := 80 },
    wind := none,
    weather := [{ description := some "light RAIN", main := none, icon := none }] }
theorem filterMap_range_get {γ δ : Type} (l : List γ) (f : γ → δ) :
    (List.range l.length).filterMap (fun i => (l[i]?).map f) = l.map f := by
  induction l with
  | nil => simp
  | cons a t ih =>
    rw [List.length_cons, List.range_succ_eq_map, List.filterMap_cons]
    simp only [List.getElem?_cons_zero, Option.map_some']
    rw [List.filterMap_map]
    have h : ((fun i => ((a :: t)[i]?).map f) ∘ Nat.succ) = fun i => (t[i]?).map f := by
      funext i
      simp [List.getElem?_cons_succ]
    rw [h, ih]
    rfl

theorem filterMap_range'_get {γ δ : Type} (l : List γ) (c : Nat) (f : γ → δ) :
    (List.range' c (l.length - c)).filterMap (fun i => (l[i]?).map f)
      = (l.drop c).map f := by
  have hmap : List.range' c (l.length - c) = (List.range (l.length - c)).map (c + ·) := by
    rw [List.range'_eq_map_range]
  rw [hmap, List.filterMap_map]
  have h : ((fun i => (l[i]?).map f) ∘ (c + ·)) = fun i => ((l.drop c)[i]?).map f := by
    funext i
    simp only [Function.comp_apply, List.getElem?_drop]
  rw [h]
  have hlen : l.length - c = (l.drop c).length := by
    rw [List.length_drop]
  rw [hlen, filterMap_range_get]

theorem filterMap_range_zip {α β γ : Type} (old : List α) (new : List β) (f : α → β → γ) :
    (List.range (min old.length new.length)).filterMap (fun i =>
      match old[i]?, new[i]? with
      | some o, some n => some (f o n)
      | _, _ => none) = List.zipWith f old new := by
  induction old generalizing new with
  | nil => simp
  | cons o os ih =>
    cases new with
    | nil => simp
    | cons n ns =>
      rw [List.length_cons, List.length_cons, Nat.succ_min_succ,
        List.range_succ_eq_map, List.filterMap_cons]
      simp only [List.getElem?_cons_zero]
      rw [List.filterMap_map]
      have h : ((fun i =>
          match (o :: os)[i]?, (n :: ns)[i]? with
          | some a, some b => some (f a b)
          | _, _ => none) ∘ Nat.succ) = fun i =>
          match os[i]?, ns[i]? with
          | some a, some b => some (f a b)
          | _, _ => none := by
        funext i
        simp [List.getElem?_cons_succ]
      rw [h, ih]
      rfl

theorem reconcile_indexed {α β : Type} (old : List α) (new : List β) :
    reconcileCalls old new
      = List.zipWith ApiCall.replace old new
          ++ (new.drop old.length).map ApiCall.add
          ++ (old.drop new.length).map ApiCall.delete := by
  have hz := filterMap_range_zip old new ApiCall.replace
  simp only [reconcileCalls]
  rcases Nat.lt_trichotomy old.length new.length with h | h | h
  · have hmin : min old.length new.length = old.length := Nat.min_eq_left (Nat.le_of_lt h)
    rw [hmin] at hz
    rw [hmin, if_pos h, hz]
    rw [filterMap_range'_get new old.length ApiCall.add]
    rw [List.drop_eq_nil_of_le (Nat.le_of_lt h), List.map_nil, List.append_nil]
  · have hmin : min old.length new.length = old.length := by rw [h, Nat.min_self]
    rw [hmin] at hz
    rw [hmin, if_neg (by omega), if_neg (by omega), hz]
    rw [List.drop_eq_nil_of_le (Nat.le_of_eq h.symm), List.drop_eq_nil_of_le (Nat.le_of_eq h)]
    simp
  · have hmin : min old.length new.length = new.length := Nat.min_eq_right (Nat.le_of_lt h)
    rw [hmin] at hz
    rw [hmin, if_neg (by omega), if_pos h, hz]
    rw [filterMap_range'_get old new.length ApiCall.delete]
    rw [List.drop_eq_nil_of_le (Nat.le_of_lt h), List.map_nil]
    simp

/-- C1: `_draw_text_block` resolves x by the four-way ladder (explicit x,
right-aligned margin `imageWidth - x - w`, caller default, horizontal
centering) and y by the three-way ladder (explicit y, caller default,
bottom anchor `imageHeight - h - 40`); consequently, for a right-aligned
layout with margin `m`, the right edge of the drawn text is `imageWidth - m`
for every text. -/
theorem drawField_ladder (measure : Nat → String → Int × Int) (imgW imgH : Int)
    (text : String) (layout : BlockLayout) (dX dY : Option Int) :
    (∀ lx, layout.x = some lx → layout.right_align = false →
      (drawField measure imgW imgH text layout dX dY).1 = lx) ∧
    (∀ lx, layout.x = some lx → layout.right_align = true →
      (drawField measure imgW imgH text layout dX dY).1
        = imgW - lx - (measure layout.font_size text).1) ∧
    (layout.x = none → ∀ dx, dX = some dx →
      (drawField measure imgW imgH text layout dX dY).1 = dx) ∧
    (layout.x = none → dX = none →
      (drawField measure imgW imgH text layout dX dY).1
        = (imgW - (measure layout.font_size text).1).fdiv 2) ∧
    (∀ ly, layout.y = some ly →
      (drawField measure imgW imgH text layout dX dY).2.1 = ly) ∧
    (layout.y = none → ∀ dy, dY = some dy →
      (drawField measure imgW imgH text layout dX dY).2.1 = dy) ∧
    (layout.y = none → dY = none →
      (drawField measure imgW imgH text layout dX dY).2.1
        = imgH - (measure layout.font_size text).2 - 40) ∧
    (∀ m, layout.x = some m → layout.right_align = true →
      (drawField measure imgW imgH text layout dX dY).1
        + (drawField measure imgW imgH text layout dX dY).2.2.1 = imgW - m) := by
  obtain ⟨lx?, ly?, fs, ra⟩ := layout
  refine ⟨?_, ?_, ?_, ?_, ?_, ?_, ?_, ?_⟩
  · intro lx hx hra
    cases hx
    cases hra
    simp [drawField]
  · intro lx hx hra
    cases hx
    cases hra
    simp [drawField]
  · intro hx dx hdx
    cases hx
    cases hdx
    simp [drawField]
  · intro hx hdx
    cases hx
    cases hdx
    simp [drawField]
  · intro ly hy
    cases hy
    simp [drawField]
  · intro hy dy hdy
    cases hy
    cases hdy
    simp [drawField]
  · intro hy hdy
    cases hy
    cases hdy
    simp [drawField]
  · intro m hx hra
    cases hx
    cases hra
    simp [drawField]

theorem drawField_ladder_witness :
    (drawField measureFix 512 512 "21"
        { x := some 80, y := some 30, font_size := 140, right_align := true }
        none (some 70)).1
      + (drawField measureFix 512 512 "21"
        { x := some 80, y := some 30, font_size := 140, right_align := true }
        none (some 70)).2.2.1 = 512 - 80 :=
  (drawField_ladder measureFix 512 512 "21"
    { x := some 80, y := some 30, font_size := 140, right_align := true }
    none (some 70)).2.2.2.2.2.2.2 80 rfl rfl

/-- C3: `_get_background_path` returns the first existing path among the
convention-named background (tried only for a non-empty icon code), then
`bg_fallback.png`, then `bg_01d.png`; when none exists it fails with an
error naming all three attempted paths. -/
theorem backgroundPath_order (ex : String → Bool) (icon : String) :
    (icon ≠ "" → ex (bgPath icon) = true →
      getBackgroundPath ex icon = .ok (bgPath icon)) ∧
    ((icon = "" ∨ ex (bgPath icon) = false) →
      ex (IMAGES_DIR ++ BG_FALLBACK_1) = true →
      getBackgroundPath ex icon = .ok (IMAGES_DIR ++ BG_FALLBACK_1)) ∧
    ((icon = "" ∨ ex (bgPath icon) = false) →
      ex (IMAGES_DIR ++ BG_FALLBACK_1) = false →
      ex (IMAGES_DIR ++ BG_FALLBACK_2) = true →
      getBackgroundPath ex icon = .ok (IMAGES_DIR ++ BG_FALLBACK_2)) ∧
    ((icon = "" ∨ ex (bgPath icon) = false) →
      ex (IMAGES_DIR ++ BG_FALLBACK_1) = false →
      ex (IMAGES_DIR ++ BG_FALLBACK_2) = false →
      getBackgroundPath ex icon
        = .error [bgPath icon, IMAGES_DIR ++ BG_FALLBACK_1,
                  IMAGES_DIR ++ BG_FALLBACK_2]) := by
  refine ⟨?_, ?_, ?_, ?_⟩
  · intro h1 h2
    simp [getBackgroundPath, bne_iff_ne, h1, h2]
  · intro h1 hfb1
    rcases h1 with he | hne
    · subst he
      simp [getBackgroundPath, hfb1]
    · simp [getBackgroundPath, hne, hfb1]
  · intro h1 hfb1 hfb2
    rcases h1 with he | hne
    · subst he
      simp [getBackgroundPath, hfb1, hfb2]
    · simp [getBackgroundPath, hne, hfb1, hfb2]
  · intro h1 hfb1 hfb2
    rcases h1 with he | hne
    · subst he
      simp [getBackgroundPath, hfb1, hfb2]
    · simp [getBackgroundPath, hne, hfb1, hfb2]

theorem backgroundPath_order_witness :
    getBackgroundPath exFB1 "10d" = .ok (IMAGES_DIR ++ BG_FALLBACK_1) :=
  (backgroundPath_order exFB1 "10d").2.1 (Or.inr (by decide)) (by decide)

/-- C4 counterexample: for UTC 2024-12-07T20:55:00 and offset +5 the code
computes day "08" (the local date has crossed midnight), not "07" as the
claim states. -/
theorem localTime_day_cex :
    ¬ (cityLocalStrings ⟨2024, 12, 7, 20, 55⟩ 5).1 = "07" := by decide

/-- C4 (amended): for UTC 2024-12-07T20:55:00 and offset +5 the localized
strings are day "08", month "Dec", time "01:55". -/
theorem localTime_midnight :
    cityLocalStrings ⟨2024, 12, 7, 20, 55⟩ 5 = ("08", "Dec", "01:55") := by decide

/-- C5: when get-sticker-set fails with a "not found"-class message the
orchestrator creates the set with the full new list and issues no
replace/add/delete calls; any other get-sticker-set error is re-raised. -/
theorem syncCreate_spec (α β : Type) (msg : String) (ns : List β) :
    (isNotFoundMsg msg = true →
      syncAfterUpload (α := α) (Except.error msg) ns
          = .ok [ApiCall.createSet ns]
        ∧ ∀ l, syncAfterUpload (α := α) (Except.error msg) ns = .ok l →
            l.countP isMutationCall = 0) ∧
    (isNotFoundMsg msg = false →
      syncAfterUpload (α := α) (Except.error msg) ns = Except.error msg) := by
  constructor
  · intro h
    constructor
    · simp [syncAfterUpload, h]
    · intro l hl
      simp [syncAfterUpload, h] at hl
      subst hl
      simp [List.countP, List.countP.go, isMutationCall]
  · intro h
    simp [syncAfterUpload, h]

theorem syncCreate_spec_witness :
    syncAfterUpload (α := Nat) (Except.error "Bad Request: STICKERSET_INVALID") [1, 2]
      = .ok [ApiCall.createSet [1, 2]] :=
  ((syncCreate_spec Nat Nat "Bad Request: STICKERSET_INVALID" [1, 2]).1 (by decide)).1

/-- C6 counterexample: for an empty icon code `_paste_icon` skips the icon
but emits no warning, contrary to the claim that a warning is emitted in
that case too. -/
theorem pasteIcon_empty_cex :
    (pasteIcon (fun _ => false) "").1 = none
      ∧ (pasteIcon (fun _ => false) "").2 = false :=
  ⟨rfl, rfl⟩

/-- C6 (amended): if the icon code is empty or the icon file is missing,
icon resolution yields no path and no fallback icon is substituted; the
warning is emitted exactly when the code is non-empty but the file is
missing; the rest of the composition still completes. -/
theorem iconResolution_skip (exBg exIcon : String → Bool)
    (measure : Nat → String → Int × Int) (imgW imgH : Int)
    (cityName : String) (w : WeatherInfo) (dayT monthT timeT : String) :
    (w.icon_code = "" ∨ exIcon (iconPath w.icon_code) = false →
      (pasteIcon exIcon w.icon_code).1 = none) ∧
    ((pasteIcon exIcon w.icon_code).2 = true ↔
      (w.icon_code ≠ "" ∧ exIcon (iconPath w.icon_code) = false)) ∧
    (∀ p, (pasteIcon exIcon w.icon_code).1 = some p → p = iconPath w.icon_code) ∧
    (∀ bg, getBackgroundPath exBg w.icon_code = .ok bg →
      (pasteIcon exIcon w.icon_code).1 = none →
      composeOps exBg exIcon measure imgW imgH cityName w dayT monthT timeT
        = .ok (DrawOp.background bg
            :: textOps measure imgW imgH cityName w dayT monthT timeT)) := by
  refine ⟨?_, ?_, ?_, ?_⟩
  · intro h
    rcases h with he | hne
    · simp [pasteIcon, he]
    · by_cases hz : w.icon_code = ""
      · simp [pasteIcon, hz]
      · simp [pasteIcon, hz, hne]
  · by_cases hz : w.icon_code = ""
    · simp [pasteIcon, hz]
    · by_cases hex : exIcon (iconPath w.icon_code) = true
      · simp [pasteIcon, hz, hex]
      · simp only [Bool.not_eq_true] at hex
        simp [pasteIcon, hz, hex]
  · intro p hp
    by_cases hz : w.icon_code = ""
    · simp [pasteIcon, hz] at hp
    · by_cases hex : exIcon (iconPath w.icon_code) = true
      · simp [pasteIcon, hz, hex] at hp
        exact hp.symm
      · simp only [Bool.not_eq_true] at hex
        simp [pasteIcon, hz, hex] at hp
  · intro bg hbg hnone
    simp [composeOps, hbg, hnone]

theorem iconResolution_skip_witness :
    composeOps exFB1 (fun _ => false) measureFix 512 512 "Ufa" wSample
        "07" "Dec" "20:55"
      = .ok (DrawOp.background (IMAGES_DIR ++ BG_FALLBACK_1)
          :: textOps measureFix 512 512 "Ufa" wSample "07" "Dec" "20:55") :=
  (iconResolution_skip exFB1 (fun _ => false) measureFix 512 512 "Ufa" wSample
      "07" "Dec" "20:55").2.2.2 (IMAGES_DIR ++ BG_FALLBACK_1) rfl rfl

/-- C7 counterexample: the per-item loops catch only `BadRequest`; a
different exception from an individual call aborts the run immediately,
contrary to the claim that every possible failure is survived. -/
theorem perItem_uncaught_cex :
    runItems (fun (_ : ApiCall Nat Nat) => some (PyExc.other "timed out"))
        [ApiCall.replace 1 10, ApiCall.add 20]
      = Except.error (PyExc.other "timed out") := rfl

/-- C7 (amended): when every per-item failure is a `BadRequest`, each
replace/add/delete call is attempted in order, failures are logged, and the
run is never aborted. -/
theorem perItem_badRequest_continues {α β : Type}
    (outcome : ApiCall α β → Option PyExc) (calls : List (ApiCall α β))
    (h : ∀ c e, outcome c = some e → isBadRequestExc e = true) :
    runItems outcome calls = .ok (calls.map fun c => (c, (outcome c).isNone)) := by
  induction calls with
  | nil => rfl
  | cons c rest ih =>
    cases hoc : outcome c with
    | none => simp [runItems, hoc, ih, Except.map]
    | some e =>
      have hbr := h c e hoc
      cases e with
      | badRequest m => simp [runItems, hoc, ih, Except.map]
      | other m => simp [isBadRequestExc] at hbr

theorem perItem_badRequest_continues_witness :
    runItems (fun (_ : ApiCall Nat Nat) => some (PyExc.badRequest "sticker invalid"))
        [ApiCall.replace 1 10, ApiCall.delete 2]
      = .ok [(ApiCall.replace 1 10, false), (ApiCall.delete 2, false)] := by
  have h := perItem_badRequest_continues
    (fun (_ : ApiCall Nat Nat) => some (PyExc.badRequest "sticker invalid"))
    [ApiCall.replace 1 10, ApiCall.delete 2]
    (fun c e he => by cases he; rfl)
  simpa using h

/-- C8: `fetch_weather` defaults absent fields to wind speed 0.0, empty
description, condition "Default" and empty icon code, while `main.temp` and
`main.humidity` are taken as-is. -/
theorem fetchWeather_defaults (r : RawResp) (w0 : RawWeatherEntry)
    (rest : List RawWeatherEntry) (hw : r.weather = w0 :: rest) :
    ∃ info, fetchWeatherInfo r = some info ∧
      info.temp = r.main.temp ∧
      info.humidity = r.main.humidity ∧
      ((r.wind = none ∨ ∃ ww, r.wind = some ww ∧ ww.speed = none) →
        info.wind_speed = 0) ∧
      (w0.description = none → info.description = "") ∧
      (w0.main = none → info.condition_main = "Default") ∧
      (w0.icon = none → info.icon_code = "") := by
  refine ⟨_, by rw [fetchWeatherInfo, hw], rfl, rfl, ?_, ?_, ?_, ?_⟩
  · intro h
    rcases h with h | ⟨ww, hww, hsp⟩
    · simp [h]
    · simp [hww, hsp]
  · intro h
    simp [h, pyCapitalize]
  · intro h
    simp [h]
  · intro h
    simp [h]

theorem fetchWeather_defaults_witness :
    ∃ info, fetchWeatherInfo rSample = some info ∧
      info.temp = 5 ∧ info.humidity = 80 ∧ info.wind_speed = 0 ∧
      info.description = "" ∧ info.condition_main = "Default" ∧
      info.icon_code = "" := by
  obtain ⟨info, h1, h2, h3, h4, h5, h6, h7⟩ :=
    fetchWeather_defaults rSample ⟨none, none, none⟩ [] rfl
  exact ⟨info, h1, h2, h3, h4 (Or.inl rfl), h5 rfl, h6 rfl, h7 rfl⟩

/-- C9: the details block draws exactly three lines in the order humidity,
wind, description, each at `x = DETAILS_LAYOUT.x`, the first at
`y = DETAILS_LAYOUT.y`, and each next line's y is the previous y plus that
line's measured height plus the line spacing. -/
theorem detailsBlock_stacking (measure : Nat → String → Int × Int)
    (w : WeatherInfo) :
    drawDetailsBlock measure w =
      [("Humidity: " ++ toString w.humidity ++ "%",
          DETAILS_LAYOUT.x, DETAILS_LAYOUT.y),
       ("Wind: " ++ fmtFixed1 w.wind_speed ++ " m/s",
          DETAILS_LAYOUT.x,
          DETAILS_LAYOUT.y
            + (measure DETAILS_LAYOUT.font_size
                ("Humidity: " ++ toString w.humidity ++ "%")).2
            + DETAILS_LAYOUT.line_spacing),
       (w.description,
          DETAILS_LAYOUT.x,
          DETAILS_LAYOUT.y
            + (measure DETAILS_LAYOUT.font_size
                ("Humidity: " ++ toString w.humidity ++ "%")).2
            + DETAILS_LAYOUT.line_spacing
            + (measure DETAILS_LAYOUT.font_size
                ("Wind: " ++ fmtFixed1 w.wind_speed ++ " m/s")).2
            + DETAILS_LAYOUT.line_spacing)] := rfl

/-- C10: the weather description stored in the snapshot is the capitalized
form of the provider string (first character uppercased, the rest
lowercased), and that normalized form is the third line the details block
renders. -/
theorem description_capitalized :
    (∀ (measure : Nat → String → Int × Int) (r : RawResp)
        (w0 : RawWeatherEntry) (rest : List RawWeatherEntry),
      r.weather = w0 :: rest →
      ∃ info, fetchWeatherInfo r = some info ∧
        info.description = pyCapitalize (w0.description.getD "") ∧
        ((drawDetailsBlock measure info)[2]?).map (fun l => l.1)
          = some (pyCapitalize (w0.description.getD ""))) ∧
    pyCapitalize "light RAIN" = "Light rain" := by
  constructor
  · intro measure r w0 rest hw
    refine ⟨{ temp := r.main.temp, humidity := r.main.humidity,
              wind_speed := ((r.wind.getD ⟨none⟩).speed).getD 0,
              description := pyCapitalize (w0.description.getD ""),
              condition_main := w0.main.getD "Default",
              icon_code := w0.icon.getD "" },
        by rw [fetchWeatherInfo, hw], rfl, rfl⟩
  · decide

theorem description_capitalized_witness :
    ∃ info, fetchWeatherInfo rSample2 = some info ∧
      info.description = pyCapitalize "light RAIN" ∧
      ((drawDetailsBlock measureFix info)[2]?).map (fun l => l.1)
        = some (pyCapitalize "light RAIN") :=
  description_capitalized.1 measureFix rSample2
    ⟨some "light RAIN", none, none⟩ [] rfl

/-- C2: reconciliation issues exactly one replace per common index, pairing
`old[i]` with `new[i]` in index order, then adds for the extra new stickers
or deletes for the extra old ones; in particular `old=[A,B,C]`, `new=[X,Y]`
yields replace, replace, delete with no adds, and `old=[A]`, `new=[X,Y,Z]`
yields replace, add, add with no deletes. -/
theorem reconcile_diff_spec :
    (∀ (α β : Type) (old : List α) (new : List β),
      reconcileCalls old new
        = List.zipWith ApiCall.replace old new
            ++ (new.drop old.length).map ApiCall.add
            ++ (old.drop new.length).map ApiCall.delete) ∧
    reconcileCalls ["A", "B", "C"] ["X", "Y"]
      = [ApiCall.replace "A" "X", ApiCall.replace "B" "Y", ApiCall.delete "C"] ∧
    reconcileCalls ["A"] ["X", "Y", "Z"]
      = [ApiCall.replace "A" "X", ApiCall.add "Y", ApiCall.add "Z"] :=
  ⟨fun _ _ old new => reconcile_indexed old new, by decide, by decide⟩
